import Mathlib

/-!
Verification of the data-source resolution engine of `sparkly`
(`sparkly/reader.py`): the URL-based dispatch `SparklyReader.by_url`,
the per-backend resolvers (`_resolve_cassandra`, `_resolve_csv`,
`_resolve_elastic`, `_resolve_mysql`, `_resolve_parquet`,
`_resolve_table`), the generic loader `_basic_read`, and the kafka
reader `SparklyReader.kafka`.

The embedding is shallow: Python dictionaries become association lists
with Python `dict` semantics (assignment keeps the position of an
existing key and appends new keys), errors become an explicit `Err`
type threaded through `Except`, and the external Spark execution
engine is represented by a trace of `EngineCall` values recording
exactly what configuration the layer under verification handed to it.
The result of `urllib.parse.urlparse` is represented by the
`ParsedUrl` structure (the library itself is Python stdlib and is not
reimplemented); `pyspark` dataframes are represented by the `Df` tree
recording the operations applied to an engine-loaded frame.
-/

/-- A Python value as it occurs in the configuration dictionaries of
`reader.py`: strings (query-string values, option values), integers
(the coerced `parallelism`, ports), and the opaque result of the
external helper `sparkly.utils.parse_schema` applied to a raw value
(used by `_resolve_csv`). -/
inductive Val where
  | s (v : String)
  | i (v : Int)
  | parsedSchema (raw : Val)
deriving DecidableEq, Repr

/-- The Python exceptions that `reader.py` code paths can raise:
`sparkly.exceptions.InvalidArgumentError`, `NotImplementedError`
(unknown scheme in `by_url`), `ValueError` (from the `int()` builtin),
`IndexError` (indexing a missing path segment), and `TypeError`. -/
inductive Err where
  | invalidArgument (msg : String)
  | notImplemented (msg : String)
  | valueError (msg : String)
  | typeError (msg : String)
  | indexError
deriving DecidableEq, Repr

namespace Py

/-- Python `d[k]` / `d.get(k)`: the value at the first matching key. -/
def lookup [DecidableEq κ] : List (κ × α) → κ → Option α
  | [], _ => none
  | kv :: rest, k => if kv.1 = k then some kv.2 else lookup rest k

/-- Python `k in d`. -/
def contains [DecidableEq κ] (d : List (κ × α)) (k : κ) : Bool :=
  (lookup d k).isSome

/-- Python `d[k] = v`: replace the value at an existing key in place,
otherwise append the new pair at the end. -/
def insert [DecidableEq κ] : List (κ × α) → κ → α → List (κ × α)
  | [], k, v => [(k, v)]
  | kv :: rest, k, v => if kv.1 = k then (k, v) :: rest else kv :: insert rest k v

/-- Removal of a key, as done by Python `d.pop(k, None)`. -/
def erase [DecidableEq κ] : List (κ × α) → κ → List (κ × α)
  | [], _ => []
  | kv :: rest, k => if kv.1 = k then rest else kv :: erase rest k

/-- Python `d.pop(k, None)`: the popped value (or `none`) together with
the remaining dictionary. -/
def pop [DecidableEq κ] (d : List (κ × α)) (k : κ) : Option α × List (κ × α) :=
  (lookup d k, erase d k)

/-- Python `d.update(other)` (also the `for k, v in other.items(): ...`
option loops): assign every pair of `other` into `d`, left to right. -/
def update [DecidableEq κ] (d : List (κ × α)) : List (κ × α) → List (κ × α)
  | [] => d
  | kv :: rest => update (insert d kv.1 kv.2) rest

/-- The keys of the dictionary are pairwise distinct (always true of a
real Python `dict`; stated explicitly because the embedding uses
association lists). -/
def keysNodup [DecidableEq κ] : List (κ × α) → Bool
  | [] => true
  | kv :: rest => !(rest.any (fun kv2 => kv2.1 = kv.1)) && keysNodup rest

end Py

/-- A dictionary with string keys as used for reader configurations. -/
abbrev Dict := List (String × Val)

/-- The result of `urllib.parse.urlparse` (plus `parse_qsl` applied to
its query component) on a URL of the shape
`scheme://host[:port]/path?query`, the grammar documented by `by_url`:
`host` is the `hostname` attribute (bare host, no port), `port` the
`port` attribute, `path` the raw path string, and `query` the key/value
pairs produced by `parse_qsl`.  `urllib` is Python stdlib and is taken
as an external collaborator; its output is the input of the code under
verification. -/
structure ParsedUrl where
  scheme : String
  host : String
  port : Option Nat
  path : String
  query : List (String × String)
deriving DecidableEq, Repr

/-- The `netloc` attribute of the parse result: the full authority
string, `host:port` when an explicit port is present. -/
def ParsedUrl.netloc (u : ParsedUrl) : String :=
  match u.port with
  | some p => u.host ++ ":" ++ toString p
  | none => u.host

/-- The `hostname` attribute: the bare host. -/
def ParsedUrl.hostname (u : ParsedUrl) : String := u.host

/-- Python truthiness of a string: non-empty. -/
def pyTruthyStr (s : String) : Bool := !(s = "")

/-- Python truthiness of an optional string (`None` is falsy). -/
def pyTruthyOptStr : Option String → Bool
  | none => false
  | some s => pyTruthyStr s

/-- Python truthiness of an `int`: non-zero. -/
def pyTruthyInt (n : Int) : Bool := !(n = 0)

/-- Python truthiness of a `Val`.  `parse_schema` returns a pyspark
`StructType` object, which is truthy whenever it has fields; it is
never truthiness-tested in `reader.py`, so it is mapped to `true`. -/
def Val.truthy : Val → Bool
  | .s v => pyTruthyStr v
  | .i n => pyTruthyInt n
  | .parsedSchema _ => true

/-- Python truthiness of an optional value (`None` is falsy). -/
def pyTruthyOptVal : Option Val → Bool
  | none => false
  | some v => v.truthy

/-- Python truthiness of `include_meta_cols : bool|None`. -/
def pyTruthyOptBool : Option Bool → Bool
  | none => false
  | some b => b

/-- Python truthiness of an optional port number (`None` and `0` are
falsy, as in the `if port:` guards of `reader.py`). -/
def pyTruthyOptNat : Option Nat → Bool
  | none => false
  | some n => !(n = 0)

/-- The string conversion `'{}'.format(v)` / `str(v)` for the values
that occur in query dictionaries. -/
def Val.pyStr : Val → String
  | .s v => v
  | .i n => toString n
  | .parsedSchema _ => "StructType"

/-- Python `str.split(sep)` for a one-character separator (the only
separators `reader.py` uses are `/` and `,`): split at every
occurrence, keeping empty pieces, so the result always has at least
one element.  Written as structural recursion over the character list
so that it evaluates inside the kernel. -/
def pySplitAux (sep : Char) : List Char → List Char → List String
  | [], acc => [String.mk acc.reverse]
  | c :: cs, acc =>
    if c = sep then String.mk acc.reverse :: pySplitAux sep cs []
    else pySplitAux sep cs (c :: acc)

/-- Python `s.split(sep)` with a one-character separator. -/
def pySplit (s : String) (sep : Char) : List String := pySplitAux sep s.toList []

/-- Strip leading whitespace from a character list. -/
def pyStripLeft : List Char → List Char
  | [] => []
  | c :: cs => if c.isWhitespace then pyStripLeft cs else c :: cs

/-- Python `str.strip()` on the character list of a string. -/
def pyStrip (cs : List Char) : List Char :=
  ((pyStripLeft (pyStripLeft cs).reverse)).reverse

/-- Scanner for the digit part of the Python `int()` builtin after its
first digit: decimal digits with single underscores allowed between
digits (PEP 515).  `afterU` records that the previous character was an
underscore (which must be followed by a digit). -/
def pyIntScan : List Char → Nat → Bool → Option Nat
  | [], acc, afterU => if afterU then none else some acc
  | c :: cs, acc, afterU =>
    if c.isDigit then pyIntScan cs (10 * acc + (c.toNat - 48)) false
    else if c = '_' then (if afterU then none else pyIntScan cs acc true)
    else none

/-- The digit part of `int()`: at least one digit, then `pyIntScan`. -/
def pyIntParseNat : List Char → Option Nat
  | [] => none
  | c :: cs => if c.isDigit then pyIntScan cs (c.toNat - 48) false else none

/-- The Python `int(s)` builtin on a string: surrounding whitespace is
stripped, an optional sign precedes a non-empty digit sequence; any
other shape raises `ValueError`, rendered here as `none`. -/
def pyInt (s : String) : Option Int :=
  match pyStrip s.toList with
  | '+' :: rest => (pyIntParseNat rest).map (fun n => (n : Int))
  | '-' :: rest => (pyIntParseNat rest).map (fun n => -(n : Int))
  | rest => (pyIntParseNat rest).map (fun n => (n : Int))

/-- Python `repr` of a string as it appears inside the `ValueError`
message of `int()` (single quotes, exotic escapes not modelled). -/
def pyReprQuote (v : String) : String := "\x27" ++ v ++ "\x27"

/-- Application of the `int()` builtin to a dictionary value, as in
`int(parsed_qs['parallelism'])`: identity on integers, string parsing
with `ValueError` on failure, `TypeError` on other operands. -/
def valToIntExc : Val → Except Err Int
  | .i n => .ok n
  | .s v =>
    match pyInt v with
    | some n => .ok n
    | none => .error (.valueError ("invalid literal for int() with base 10: " ++ pyReprQuote v))
  | .parsedSchema _ => .error (.typeError "int() argument must be a string or a number")

/-- An atomic `pyspark.sql.types` data type, as far as the kafka
deserializer wiring needs one (the declared type of a schema field is
carried through to the produced column unchanged). -/
inductive DataType where
  | string
  | binary
  | integer
  | long
  | double
deriving DecidableEq, Repr

/-- `DataType.simpleString()` of pyspark for the atomic types above. -/
def DataType.simpleString : DataType → String
  | .string => "string"
  | .binary => "binary"
  | .integer => "int"
  | .long => "bigint"
  | .double => "double"

/-- A field of a `pyspark.sql.types.StructType`. -/
structure StructField where
  name : String
  dataType : DataType
deriving DecidableEq, Repr

/-- A `pyspark.sql.types.StructType` schema: an ordered field list. -/
structure StructType where
  fields : List StructField
deriving DecidableEq, Repr

/-- `StructType.simpleString()` of pyspark, as interpolated into the
missing-field error message of `SparklyReader.kafka`. -/
def StructType.simpleString (s : StructType) : String :=
  "struct<" ++
    String.intercalate "," (s.fields.map (fun f => f.name ++ ":" ++ f.dataType.simpleString)) ++
    ">"

/-- A call into the external Spark execution engine, as issued by
`reader.py`: a generic `spark.read.load(**kwargs)` (used by
`_basic_read` and `_resolve_parquet`), the csv entry point
`spark.read.csv(path=..., **kwargs)` (used by `_resolve_csv`), the
catalog lookup `spark.table(name)` (used by `_resolve_table`), and the
load of a `spark.read.format('kafka')` reader carrying the options
accumulated through `.option(key, value)` calls. -/
inductive EngineCall where
  | load (kwargs : Dict)
  | csvRead (path : String) (kwargs : Dict)
  | tableRead (name : String)
  | kafkaLoad (options : Dict)
deriving DecidableEq, Repr

/-- A column expression: a named column, or a user-defined function
(identified by an opaque id, since the deserializer callables are
external) declared with a return type and applied to an argument, as
built by `F.udf(deserializer, returnType=...)(F.col(field))`. -/
inductive ColExpr where
  | col (name : String)
  | udfApp (fnId : Nat) (returnType : DataType) (arg : ColExpr)
deriving DecidableEq, Repr

/-- A pyspark dataframe as this layer sees it: the frame returned by
an engine call (whose column list `cols` the external engine
determines), with the transformations `reader.py` applies recorded on
top. -/
inductive Df where
  | source (call : EngineCall) (cols : List String)
  | withColumn (base : Df) (name : String) (e : ColExpr)
  | select (base : Df) (names : List String)
  | coalesce (base : Df) (n : Val)
deriving DecidableEq, Repr

/-- The column names of a dataframe: engine-provided for a loaded
frame; `withColumn` replaces an existing column in place or appends a
new one; `select` projects to exactly the requested names; `coalesce`
leaves columns unchanged. -/
def Df.columns : Df → List String
  | .source _ cols => cols
  | .withColumn base name _ =>
    if (Df.columns base).contains name then Df.columns base else Df.columns base ++ [name]
  | .select _ names => names
  | .coalesce base _ => Df.columns base

/-- Whether any projection (`select`) was applied to the frame. -/
def Df.hasSelect : Df → Bool
  | .source _ _ => false
  | .withColumn base _ _ => Df.hasSelect base
  | .select _ _ => true
  | .coalesce base _ => Df.hasSelect base

/-- Whether the frame applies, somewhere in its transformation chain,
the user-defined function `fnId` with return type `dt` to the column
`name`, writing the result back to that same column — the shape the
kafka deserializer wiring produces. -/
def Df.appliesDeser : Df → String → Nat → DataType → Bool
  | .source _ _, _, _, _ => false
  | .withColumn base n e, name, f, dt =>
    (decide (n = name) && decide (e = ColExpr.udfApp f dt (ColExpr.col name))) ||
      Df.appliesDeser base name f dt
  | .select base _, name, f, dt => Df.appliesDeser base name f dt
  | .coalesce base _, name, f, dt => Df.appliesDeser base name f dt

/-- The `topic` argument of `SparklyReader.kafka`: a single string or a
list of strings (`isinstance(topic, str)` wraps the former). -/
inductive TopicArg where
  | one (t : String)
  | many (ts : List String)
deriving DecidableEq, Repr

/-- Normalisation performed at the top of `kafka`: a single string
becomes a one-element list. -/
def TopicArg.toList : TopicArg → List String
  | .one t => [t]
  | .many ts => ts

/-- `offset[which]` for an offset-range triple
`(partition, start_offset, end_offset)`. -/
def tripleGet (o : Int × Int × Int) : Nat → Int
  | 0 => o.1
  | 1 => o.2.1
  | _ => o.2.2

/-- The inner function `get_offsets` of `kafka`: the dict comprehension
`{offset[0]: offset[which] for offset in offsets}` (iteration order,
later duplicates of a partition id overriding earlier ones). -/
def kafkaGetOffsets (offsets : List (Int × Int × Int)) (which : Nat) : List (Int × Int) :=
  offsets.foldl (fun acc o => Py.insert acc (tripleGet o 0) (tripleGet o which)) []

/-- One character of a JSON string literal as `json.dumps` emits it
(quote and backslash escaped; control characters are not modelled, the
strings serialised here are topic names and decimal numerals). -/
def jsonEscapeChar (c : Char) : String :=
  if c = '\x22' then "\x5c\x22"
  else if c = '\x5c' then "\x5c\x5c"
  else String.singleton c

/-- A JSON string literal as `json.dumps` emits it. -/
def jsonStr (s : String) : String :=
  "\x22" ++ String.join (s.toList.map jsonEscapeChar) ++ "\x22"

/-- `json.dumps` of an `int -> int` Python dict with default
separators: integer keys are stringified and quoted, `", "` between
items, `": "` after each key. -/
def jsonDumpsIntDict (d : List (Int × Int)) : String :=
  "\x7b" ++
    String.intercalate ", " (d.map (fun kv => jsonStr (toString kv.1) ++ ": " ++ toString kv.2)) ++
    "\x7d"

/-- `json.dumps` of a `str -> (int -> int)` Python dict with default
separators. -/
def jsonDumpsStrIntDict (d : List (String × List (Int × Int))) : String :=
  "\x7b" ++
    String.intercalate ", "
      (d.map (fun kv => jsonStr kv.1 ++ ": " ++ jsonDumpsIntDict kv.2)) ++
    "\x7d"

/-- The dict comprehension `{t: get_offsets(offset_ranges, which) for t
in topic}` of `kafka`. -/
def topicOffsetsMap (topics : List String) (ranges : List (Int × Int × Int)) (which : Nat) :
    List (String × List (Int × Int)) :=
  topics.foldl (fun acc t => Py.insert acc t (kafkaGetOffsets ranges which)) []

/-- Truthiness of the `offset_ranges` argument (`if offset_ranges:`):
`None` and the empty list are falsy. -/
def pyTruthyRanges : Option (List (Int × Int × Int)) → Bool
  | none => false
  | some l => !l.isEmpty

/-- The error message raised by `kafka` when `offset_ranges` is
combined with more than one topic. -/
def kafkaMultiTopicMsg : String :=
  "Specifying offset_ranges for multiple topics is not currently supported; " ++
    "please specify options \x22startingOffsets\x22 and \x22endingOffsets\x22 manually"

/-- The options of the kafka `DataFrameReader` before the caller-option
loop: bootstrap servers and subscription, plus — when `offset_ranges`
is truthy — the serialised `startingOffsets` and `endingOffsets`, or
the `InvalidArgumentError` of the multi-topic gate. -/
def kafkaReaderOptions (host : String) (port : Int) (topics : List String)
    (offsetRanges : Option (List (Int × Int × Int))) : Except Err Dict :=
  let base : Dict :=
    Py.insert (Py.insert [] "kafka.bootstrap.servers" (Val.s (host ++ ":" ++ toString port)))
      "subscribe" (Val.s (String.intercalate "," topics))
  if pyTruthyRanges offsetRanges then
    if topics.length > 1 then
      .error (.invalidArgument kafkaMultiTopicMsg)
    else
      let ranges := offsetRanges.getD []
      let starting := jsonDumpsStrIntDict (topicOffsetsMap topics ranges 1)
      let ending := jsonDumpsStrIntDict (topicOffsetsMap topics ranges 2)
      .ok (Py.insert (Py.insert base "startingOffsets" (Val.s starting))
        "endingOffsets" (Val.s ending))
  else
    .ok base

/-- The inner function `get_schema` of `kafka`: a deserializer demands
a schema, and the schema must contain a field of the requested name;
`candidates[0].dataType` of the filtered field list otherwise. -/
def kafkaGetSchema (schema : Option StructType) (field : String) : Except Err DataType :=
  match schema with
  | none => .error (.invalidArgument "Cannot use a deserializer without specifying schema")
  | some s =>
    match s.fields.filter (fun x => x.name = field) with
    | [] =>
      .error (.invalidArgument ("Cannot find field: " ++ field ++ " in schema: " ++
        s.simpleString))
    | c :: _ => .ok c.dataType

/-- The deserializer block of `kafka` for one of the columns `key` /
`value`: when a deserializer is supplied, look up the schema field and
rebind the column to the typed udf application. -/
def kafkaApplyDeser (df : Df) (field : String) (deser : Option Nat)
    (schema : Option StructType) : Except Err Df :=
  match deser with
  | none => .ok df
  | some f =>
    match kafkaGetSchema schema field with
    | .error e => .error e
    | .ok dt => .ok (Df.withColumn df field (ColExpr.udfApp f dt (ColExpr.col field)))

/-- `SparklyReader.kafka`.  Arguments follow the source signature
(`engineCols` is the column list of the frame the external engine
returns from the load; deserializer callables are opaque ids).  The
result pairs the Python outcome (dataframe or raised exception) with
the trace of engine calls that were made. -/
def kafka (host : String) (topic : TopicArg)
    (offsetRanges : Option (List (Int × Int × Int)))
    (keyDeserializer valueDeserializer : Option Nat)
    (schema : Option StructType) (port : Int) (parallelism : Option Int)
    (options : Option Dict) (includeMetaCols : Option Bool)
    (engineCols : List String) : Except Err Df × List EngineCall :=
  let topics := topic.toList
  match kafkaReaderOptions host port topics offsetRanges with
  | .error e => (.error e, [])
  | .ok ro =>
    let ro2 := Py.update ro (options.getD [])
    let call := EngineCall.kafkaLoad ro2
    let df0 := Df.source call engineCols
    match kafkaApplyDeser df0 "key" keyDeserializer schema with
    | .error e => (.error e, [call])
    | .ok df1 =>
      match kafkaApplyDeser df1 "value" valueDeserializer schema with
      | .error e => (.error e, [call])
      | .ok df2 =>
        let df3 := if !pyTruthyOptBool includeMetaCols then Df.select df2 ["key", "value"] else df2
        let df4 :=
          match parallelism with
          | some p => if pyTruthyInt p then Df.coalesce df3 (Val.i p) else df3
          | none => df3
        (.ok df4, [call])

/-- The conditional insertion pattern `if v: d[key] = v` used by the
reader methods for optional option values (e.g. `consistency`). -/
def insertIfTruthy (d : Dict) (key : String) (v : Option Val) : Dict :=
  if pyTruthyOptVal v then Py.insert d key (v.getD (Val.s "")) else d

/-- The conditional insertion pattern `if port: d[key] = str(port)`
used by the `cassandra` and `elastic` reader methods. -/
def insertPortOpt (d : Dict) (key : String) (port : Option Nat) : Dict :=
  if pyTruthyOptNat port then Py.insert d key (Val.s (toString (port.getD 0))) else d

/-- `SparklyReader._basic_read`: merge the caller-supplied options over
the resolver defaults (`reader_options.update(additional_options or
{})`), invoke `spark.read.load(**merged)` once, and coalesce when a
truthy parallelism was given. -/
def basicRead (readerOptions : Dict) (additionalOptions : Option Dict)
    (parallelism : Option Val) (engineCols : List String) :
    Except Err Df × List EngineCall :=
  let merged := Py.update readerOptions (additionalOptions.getD [])
  let df := Df.source (EngineCall.load merged) engineCols
  let df2 :=
    match parallelism with
    | some v => if v.truthy then Df.coalesce df v else df
    | none => df
  (.ok df2, [EngineCall.load merged])

/-- The `reader_options` dict built by `SparklyReader.cassandra`. -/
def cassandraOptions (host keyspace table : String) (consistency : Option Val)
    (port : Option Nat) : Dict :=
  let ro : Dict :=
    [("format", Val.s "org.apache.spark.sql.cassandra"),
     ("spark.cassandra.connection.host", Val.s host),
     ("keyspace", Val.s keyspace),
     ("table", Val.s table)]
  let ro := insertIfTruthy ro "spark.cassandra.input.consistency.level" consistency
  insertPortOpt ro "spark.cassandra.connection.port" port

/-- `SparklyReader.cassandra`. -/
def cassandraRead (host keyspace table : String) (consistency : Option Val)
    (port : Option Nat) (parallelism : Option Val) (options : Option Dict)
    (engineCols : List String) : Except Err Df × List EngineCall :=
  basicRead (cassandraOptions host keyspace table consistency port)
    options parallelism engineCols

/-- The conditional insertion `if fields:
d['es.read.field.include'] = ','.join(fields)` of `SparklyReader.elastic`. -/
def insertFieldsOpt (d : Dict) (fields : Option (List String)) : Dict :=
  match fields with
  | some fs =>
    if !fs.isEmpty then Py.insert d "es.read.field.include" (Val.s (String.intercalate "," fs))
    else d
  | none => d

/-- The `reader_options` dict built by `SparklyReader.elastic`
(`path` is `index/type` when a truthy type is given, else the index;
metadata reading is always enabled at this layer). -/
def elasticOptions (host esIndex : String) (esType : Option String) (query : String)
    (fields : Option (List String)) (port : Option Nat) : Dict :=
  let ro : Dict :=
    [("path", Val.s (if pyTruthyOptStr esType then esIndex ++ "/" ++ esType.getD "" else esIndex)),
     ("format", Val.s "org.elasticsearch.spark.sql"),
     ("es.nodes", Val.s host),
     ("es.query", Val.s query),
     ("es.read.metadata", Val.s "true")]
  insertPortOpt (insertFieldsOpt ro fields) "es.port" port

/-- `SparklyReader.elastic`. -/
def elasticRead (host esIndex : String) (esType : Option String) (query : String)
    (fields : Option (List String)) (port : Option Nat) (parallelism : Option Val)
    (options : Option Dict) (engineCols : List String) :
    Except Err Df × List EngineCall :=
  basicRead (elasticOptions host esIndex esType query fields port)
    options parallelism engineCols

/-- The `':{}'.format(port) if port else ''` fragment of the JDBC
connection URL built by `SparklyReader.mysql`. -/
def portSuffix : Option Nat → String
  | some p => if !(p = 0) then ":" ++ toString p else ""
  | none => ""

/-- The `reader_options` dict built by `SparklyReader.mysql`. -/
def mysqlOptions (host database table : String) (port : Option Nat) : Dict :=
  [("format", Val.s "jdbc"),
   ("driver", Val.s "com.mysql.jdbc.Driver"),
   ("url", Val.s ("jdbc:mysql://" ++ host ++ portSuffix port ++ "/" ++ database)),
   ("dbtable", Val.s table)]

/-- `SparklyReader.mysql`. -/
def mysqlRead (host database table : String) (port : Option Nat)
    (parallelism : Option Val) (options : Option Dict) (engineCols : List String) :
    Except Err Df × List EngineCall :=
  basicRead (mysqlOptions host database table port) options parallelism engineCols

/-- `SparklyReader._resolve_cassandra`: keyspace and table are path
segments 1 and 2 of `path.split('/')` (an `IndexError` when absent,
evaluated in keyword-argument order), `consistency` and `parallelism`
are popped from the query dict, the remainder is passed through. -/
def resolveCassandra (u : ParsedUrl) (qs : Dict) (engineCols : List String) :
    Except Err Df × List EngineCall :=
  let segs := pySplit u.path '/'
  match segs.get? 1 with
  | none => (.error .indexError, [])
  | some keyspace =>
    match segs.get? 2 with
    | none => (.error .indexError, [])
    | some table =>
      let (consistency, qs1) := Py.pop qs "consistency"
      let (parallelism, qs2) := Py.pop qs1 "parallelism"
      cassandraRead u.hostname keyspace table consistency u.port parallelism
        (some qs2) engineCols

/-- `SparklyReader._resolve_csv`: pop `parallelism`, rewrite a `schema`
query value through the external `parse_schema` helper, call
`spark.read.csv(path=..., **parsed_qs)`, then coalesce with
`int(parallelism)` when truthy. -/
def resolveCsv (u : ParsedUrl) (qs : Dict) (engineCols : List String) :
    Except Err Df × List EngineCall :=
  let (parallelism, qs1) := Py.pop qs "parallelism"
  let qs2 :=
    if Py.contains qs1 "schema" then
      let popped := Py.pop qs1 "schema"
      Py.insert popped.2 "schema" (Val.parsedSchema (popped.1.getD (Val.s "")))
    else qs1
  let call := EngineCall.csvRead u.path qs2
  let df := Df.source call engineCols
  let res : Except Err Df :=
    match parallelism with
    | some v =>
      if v.truthy then
        match valToIntExc v with
        | .error e => .error e
        | .ok n => .ok (Df.coalesce df (Val.i n))
      else .ok df
    | none => .ok df
  (res, [call])

/-- `SparklyReader._resolve_elastic`: optional `q` and `fields` query
keys are popped and rewritten, the index is path segment 1 (an
`IndexError` when absent), the type is segment 2 when the path has more
than two segments (`segs.get? 2` renders `segments[2] if
len(segments) > 2 else None` exactly, since `split` always yields at
least one segment), and the *netloc* — not the bare hostname — is
passed as the host. -/
def resolveElastic (u : ParsedUrl) (qs : Dict) (engineCols : List String) :
    Except Err Df × List EngineCall :=
  let (queryArg, qs1) :=
    if Py.contains qs "q" then
      let popped := Py.pop qs "q"
      (some ("?q=" ++ (popped.1.getD (Val.s "")).pyStr), popped.2)
    else (none, qs)
  let (fieldsArg, qs2) :=
    if Py.contains qs1 "fields" then
      let popped := Py.pop qs1 "fields"
      (some (pySplit ((popped.1.getD (Val.s "")).pyStr) ','), popped.2)
    else (none, qs1)
  let segs := pySplit u.path '/'
  match segs.get? 1 with
  | none => (.error .indexError, [])
  | some esIndex =>
    let (parallelism, qs3) := Py.pop qs2 "parallelism"
    elasticRead u.netloc esIndex (segs.get? 2) (queryArg.getD "") fieldsArg u.port
      parallelism (some qs3) engineCols

/-- `SparklyReader._resolve_mysql`: database and table are path
segments 1 and 2 (an `IndexError` when absent), `parallelism` is
popped, the remainder is passed through. -/
def resolveMysql (u : ParsedUrl) (qs : Dict) (engineCols : List String) :
    Except Err Df × List EngineCall :=
  let segs := pySplit u.path '/'
  match segs.get? 1 with
  | none => (.error .indexError, [])
  | some database =>
    match segs.get? 2 with
    | none => (.error .indexError, [])
    | some table =>
      let (parallelism, qs1) := Py.pop qs "parallelism"
      mysqlRead u.hostname database table u.port parallelism (some qs1) engineCols

/-- `SparklyReader._resolve_parquet`: `spark.read.load` with the URL
path, the URL scheme as the format, and the remaining query keys as
keyword options, then coalesce with `int(parallelism)` when truthy. -/
def resolveParquet (u : ParsedUrl) (qs : Dict) (engineCols : List String) :
    Except Err Df × List EngineCall :=
  let (parallelism, qs1) := Py.pop qs "parallelism"
  let kwargs := Py.update [("path", Val.s u.path), ("format", Val.s u.scheme)] qs1
  let call := EngineCall.load kwargs
  let df := Df.source call engineCols
  let res : Except Err Df :=
    match parallelism with
    | some v =>
      if v.truthy then
        match valToIntExc v with
        | .error e => .error e
        | .ok n => .ok (Df.coalesce df (Val.i n))
      else .ok df
    | none => .ok df
  (res, [call])

/-- `SparklyReader._resolve_table`: `spark.table(netloc)` — the
authority is the table name, and no configuration dict is built — then
coalesce with `int(parallelism)` when truthy. -/
def resolveTable (u : ParsedUrl) (qs : Dict) (engineCols : List String) :
    Except Err Df × List EngineCall :=
  let call := EngineCall.tableRead u.netloc
  let df := Df.source call engineCols
  let (parallelism, _) := Py.pop qs "parallelism"
  let res : Except Err Df :=
    match parallelism with
    | some v =>
      if v.truthy then
        match valToIntExc v with
        | .error e => .error e
        | .ok n => .ok (Df.coalesce df (Val.i n))
      else .ok df
    | none => .ok df
  (res, [call])

/-- `dict(parse_qsl(parsed_url.query))`: build the query dict (later
duplicates of a key override earlier ones). -/
def dictOfPairs (l : List (String × String)) : Dict :=
  l.foldl (fun acc kv => Py.insert acc kv.1 (Val.s kv.2)) []

/-- The generic query-string coercion at the top of `by_url`:
`parsed_qs['parallelism'] = int(parsed_qs['parallelism'])` when the key
is present; the `int()` failure (a plain `ValueError`) propagates. -/
def coerceParallelism (qs : Dict) : Except Err Dict :=
  if Py.contains qs "parallelism" then
    match Py.lookup qs "parallelism" with
    | some v =>
      match valToIntExc v with
      | .ok n => .ok (Py.insert qs "parallelism" (Val.i n))
      | .error e => .error e
    | none => .ok qs
  else .ok qs

/-- The schemes for which a `_resolve_{scheme}` method exists on
`SparklyReader` — the closed set the `getattr` dispatch can hit. -/
def registeredSchemes : List String :=
  ["cassandra", "csv", "elastic", "mysql", "parquet", "table"]

/-- The `getattr(self, '_resolve_{}'.format(scheme))` dispatch of
`by_url`, written as the explicit closed table of resolver methods; a
missing method becomes the `NotImplementedError` carrying the original
URL string. -/
def dispatchScheme (url : String) (u : ParsedUrl) (qs : Dict) (engineCols : List String) :
    Except Err Df × List EngineCall :=
  if u.scheme = "cassandra" then resolveCassandra u qs engineCols
  else if u.scheme = "csv" then resolveCsv u qs engineCols
  else if u.scheme = "elastic" then resolveElastic u qs engineCols
  else if u.scheme = "mysql" then resolveMysql u qs engineCols
  else if u.scheme = "parquet" then resolveParquet u qs engineCols
  else if u.scheme = "table" then resolveTable u qs engineCols
  else (.error (.notImplemented ("Data source is not supported: " ++ url)), [])

/-- `SparklyReader.by_url`: parse (represented by the `ParsedUrl`
argument, the output of the stdlib parser on `url`), coerce the query
string, dispatch on the scheme. -/
def by_url (url : String) (u : ParsedUrl) (engineCols : List String) :
    Except Err Df × List EngineCall :=
  match coerceParallelism (dictOfPairs u.query) with
  | .error e => (.error e, [])
  | .ok qs => dispatchScheme url u qs engineCols

/-- The kwargs of the single generic `load` engine call of a run
(`[]` when the run made no such call). -/
def traceLoadOpts (r : Except Err Df × List EngineCall) : Dict :=
  match r.2 with
  | [EngineCall.load d] => d
  | _ => []

/-- The options of the single kafka load engine call of a run
(`[]` when the run made no such call). -/
def traceKafkaOpts (r : Except Err Df × List EngineCall) : Dict :=
  match r.2 with
  | [EngineCall.kafkaLoad d] => d
  | _ => []

/-- Whether an engine call carries a configuration map with a `format`
key.  The kafka reader constructor sets `format('kafka')`, so that
call is counted as carrying a format discriminator. -/
def engineCallHasFormatKey : EngineCall → Bool
  | .load kwargs => Py.contains kwargs "format"
  | .csvRead _ kwargs => Py.contains kwargs "format"
  | .tableRead _ => false
  | .kafkaLoad _ => true

/-- Whether a run raised `InvalidArgumentError`. -/
def raisedInvalidArgument (r : Except Err Df × List EngineCall) : Bool :=
  match r.1 with
  | .error (.invalidArgument _) => true
  | _ => false

/-- Whether a run raised the `NotImplementedError` of the scheme
dispatch. -/
def raisedNotImplemented (r : Except Err Df × List EngineCall) : Bool :=
  match r.1 with
  | .error (.notImplemented _) => true
  | _ => false

namespace Py

theorem lookup_insert_self [DecidableEq κ] (d : List (κ × α)) (k : κ) (v : α) :
    lookup (insert d k v) k = some v := by
  induction d with
  | nil => simp [insert, lookup]
  | cons kv rest ih =>
    by_cases h : kv.1 = k
    · simp [insert, h, lookup]
    · simp [insert, h, lookup, ih]

theorem lookup_insert_ne [DecidableEq κ] (d : List (κ × α)) {k k' : κ} (v : α)
    (h : k' ≠ k) : lookup (insert d k v) k' = lookup d k' := by
  induction d with
  | nil => simp [insert, lookup, Ne.symm h]
  | cons kv rest ih =>
    by_cases hh : kv.1 = k
    · simp [insert, hh, lookup, Ne.symm h]
    · by_cases hk : kv.1 = k'
      · simp [insert, hh, lookup, hk, h]
      · simp [insert, hh, lookup, hk, ih]

theorem lookup_erase_ne [DecidableEq κ] (d : List (κ × α)) {k k' : κ}
    (h : k' ≠ k) : lookup (erase d k) k' = lookup d k' := by
  induction d with
  | nil => simp [erase]
  | cons kv rest ih =>
    by_cases hh : kv.1 = k
    · simp [erase, hh, lookup, Ne.symm h]
    · by_cases hk : kv.1 = k'
      · simp [erase, hh, lookup, hk, h]
      · simp [erase, hh, lookup, hk, ih]

theorem lookup_eq_none_of_any_false [DecidableEq κ] (d : List (κ × α)) (k : κ)
    (h : d.any (fun kv => kv.1 = k) = false) : lookup d k = none := by
  induction d with
  | nil => rfl
  | cons kv rest ih =>
    simp only [List.any_cons, Bool.or_eq_false_iff, decide_eq_false_iff_not] at h
    simp [lookup, h.1, ih h.2]

theorem lookup_update_none [DecidableEq κ] (d other : List (κ × α)) (k : κ)
    (h : lookup other k = none) : lookup (update d other) k = lookup d k := by
  induction other generalizing d with
  | nil => simp [update]
  | cons kv rest ih =>
    have h1 : ¬(kv.1 = k) := by
      intro hh
      simp [lookup, hh] at h
    have h2 : lookup rest k = none := by simpa [lookup, h1] using h
    rw [update, ih _ h2, lookup_insert_ne _ _ (Ne.symm h1)]

theorem lookup_update_nodup [DecidableEq κ] (d other : List (κ × α)) (k : κ) (v : α)
    (hn : keysNodup other = true) (h : lookup other k = some v) :
    lookup (update d other) k = some v := by
  induction other generalizing d with
  | nil => simp [lookup] at h
  | cons kv rest ih =>
    simp only [keysNodup, Bool.and_eq_true, Bool.not_eq_true'] at hn
    by_cases hh : kv.1 = k
    · have hv : kv.2 = v := by simpa [lookup, hh] using h
      have hnone : lookup rest k = none :=
        lookup_eq_none_of_any_false rest k (by rw [← hh]; exact hn.1)
      rw [update, lookup_update_none _ _ _ hnone, hh, lookup_insert_self, hv]
    · have h2 : lookup rest k = some v := by simpa [lookup, hh] using h
      rw [update, ih _ hn.2 h2]

theorem contains_insert_of_contains [DecidableEq κ] (d : List (κ × α)) (k k' : κ) (v : α)
    (h : contains d k = true) : contains (insert d k' v) k = true := by
  by_cases hh : k' = k
  · subst hh
    simp [contains, lookup_insert_self]
  · rwa [contains, lookup_insert_ne _ _ (Ne.symm hh)]

theorem contains_update_left [DecidableEq κ] (d other : List (κ × α)) (k : κ)
    (h : contains d k = true) : contains (update d other) k = true := by
  induction other generalizing d with
  | nil => simpa [update] using h
  | cons kv rest ih =>
    rw [update]
    exact ih _ (contains_insert_of_contains _ _ _ _ h)

theorem lookup_none_of_contains_false [DecidableEq κ] (d : List (κ × α)) (k : κ)
    (h : contains d k = false) : lookup d k = none := by
  cases hl : lookup d k with
  | none => rfl
  | some v => simp [contains, hl] at h

end Py

/-- C2: a kafka read that supplies a non-empty `offset_ranges` sequence
together with more than one topic raises `InvalidArgumentError`, and
the execution engine's load is never invoked (the engine-call trace of
the run is empty). -/
theorem c2_offsets_multi_topic_rejected
    (host : String) (topic : TopicArg) (r : Int × Int × Int) (rs : List (Int × Int × Int))
    (kd vd : Option Nat) (schema : Option StructType) (port : Int)
    (par : Option Int) (opts : Option Dict) (imc : Option Bool) (cols : List String)
    (htop : topic.toList.length > 1) :
    kafka host topic (some (r :: rs)) kd vd schema port par opts imc cols =
      (.error (.invalidArgument kafkaMultiTopicMsg), []) := by
  have hro : kafkaReaderOptions host port topic.toList (some (r :: rs)) =
      .error (.invalidArgument kafkaMultiTopicMsg) := by
    rw [kafkaReaderOptions]
    simp [pyTruthyRanges, htop]
  rw [kafka, hro]

/-- Witness for C2: two topics with one offset range. -/
theorem c2_offsets_multi_topic_rejected_witness :
    kafka "h" (TopicArg.many ["a", "b"]) (some [(0, 1, 2)]) none none none 9092
        none none none [] =
      (.error (.invalidArgument kafkaMultiTopicMsg), []) :=
  c2_offsets_multi_topic_rejected "h" (TopicArg.many ["a", "b"]) (0, 1, 2) [] none none
    none 9092 none none none [] (by decide)

/-- The kafka run of claim C3: single topic `t`,
`offset_ranges=[(0,10,20),(1,0,5)]`. -/
def c3KafkaRun : Except Err Df × List EngineCall :=
  kafka "kafka.host" (TopicArg.one "t") (some [(0, 10, 20), (1, 0, 5)]) none none none
    9092 none none none ["key", "value"]

/-- C3: for a single topic `t` with `offset_ranges=[(0,10,20),(1,0,5)]`,
the option `startingOffsets` is the JSON serialization of the map
sending topic `t` to the partition map 0 to 10, 1 to 0, and
`endingOffsets` the serialization of 0 to 20, 1 to 5 — partition ids
become the keys, start offsets go to `startingOffsets`, end offsets to
`endingOffsets`, and no other partition appears (the serialized strings
are spelled out, braces written as x7b/x7d escapes). -/
theorem c3_offset_range_serialization :
    Py.lookup (traceKafkaOpts c3KafkaRun) "startingOffsets" =
      some (Val.s (jsonDumpsStrIntDict [("t", [(0, 10), (1, 0)])])) ∧
    Py.lookup (traceKafkaOpts c3KafkaRun) "endingOffsets" =
      some (Val.s (jsonDumpsStrIntDict [("t", [(0, 20), (1, 5)])])) ∧
    jsonDumpsStrIntDict [("t", [(0, 10), (1, 0)])] =
      "\x7b\x22t\x22: \x7b\x220\x22: 10, \x221\x22: 0\x7d\x7d" ∧
    jsonDumpsStrIntDict [("t", [(0, 20), (1, 5)])] =
      "\x7b\x22t\x22: \x7b\x220\x22: 20, \x221\x22: 5\x7d\x7d" := by
  refine ⟨?_, ?_, ?_, ?_⟩ <;> rfl

/-- The deserializer block leaves the presence of a projection on the
frame unchanged: on success it returns the frame itself or a
`withColumn` on top of it. -/
theorem kafkaApplyDeser_hasSelect (df df' : Df) (field : String) (deser : Option Nat)
    (schema : Option StructType) (h : kafkaApplyDeser df field deser schema = .ok df') :
    df'.hasSelect = df.hasSelect := by
  cases deser with
  | none =>
    simp only [kafkaApplyDeser] at h
    cases h
    rfl
  | some f =>
    simp only [kafkaApplyDeser] at h
    cases hg : kafkaGetSchema schema field with
    | error e => rw [hg] at h; cases h
    | ok dt =>
      rw [hg] at h
      cases h
      rfl

/-- C8: when `include_meta_cols` is falsy (including the default
`None`), a successful kafka read returns a frame whose columns are
exactly `key` and `value`, whatever columns the engine-loaded frame
had; when it is truthy, no projection is applied to the frame. -/
theorem c8_meta_cols_projection
    (host : String) (topic : TopicArg) (ranges : Option (List (Int × Int × Int)))
    (kd vd : Option Nat) (schema : Option StructType) (port : Int) (par : Option Int)
    (opts : Option Dict) (imc : Option Bool) (cols : List String) (df : Df) :
    (pyTruthyOptBool imc = false →
      (kafka host topic ranges kd vd schema port par opts imc cols).1 = .ok df →
      df.columns = ["key", "value"]) ∧
    (pyTruthyOptBool imc = true →
      (kafka host topic ranges kd vd schema port par opts imc cols).1 = .ok df →
      df.hasSelect = false) := by
  constructor
  · intro himc h
    rw [kafka] at h
    cases hro : kafkaReaderOptions host port topic.toList ranges with
    | error e => rw [hro] at h; simp at h
    | ok ro =>
      rw [hro] at h
      simp only [] at h
      cases hk : kafkaApplyDeser
          (Df.source (EngineCall.kafkaLoad (Py.update ro (opts.getD []))) cols)
          "key" kd schema with
      | error e => rw [hk] at h; simp at h
      | ok df1 =>
        rw [hk] at h
        simp only [] at h
        cases hv : kafkaApplyDeser df1 "value" vd schema with
        | error e => rw [hv] at h; simp at h
        | ok df2 =>
          rw [hv] at h
          simp only [] at h
          rw [himc] at h
          simp only [Bool.not_false, if_true] at h
          cases par with
          | none =>
            simp only [] at h
            injection h with h
            subst h
            rfl
          | some p =>
            simp only [] at h
            by_cases hp : pyTruthyInt p = true
            · rw [if_pos hp] at h
              injection h with h
              subst h
              rfl
            · rw [if_neg hp] at h
              injection h with h
              subst h
              rfl
  · intro himc h
    rw [kafka] at h
    cases hro : kafkaReaderOptions host port topic.toList ranges with
    | error e => rw [hro] at h; simp at h
    | ok ro =>
      rw [hro] at h
      simp only [] at h
      cases hk : kafkaApplyDeser
          (Df.source (EngineCall.kafkaLoad (Py.update ro (opts.getD []))) cols)
          "key" kd schema with
      | error e => rw [hk] at h; simp at h
      | ok df1 =>
        rw [hk] at h
        simp only [] at h
        cases hv : kafkaApplyDeser df1 "value" vd schema with
        | error e => rw [hv] at h; simp at h
        | ok df2 =>
          rw [hv] at h
          simp only [] at h
          rw [himc] at h
          simp only [Bool.not_true, Bool.false_eq_true, if_false] at h
          have hsel : df2.hasSelect = false := by
            rw [kafkaApplyDeser_hasSelect _ _ _ _ _ hv,
              kafkaApplyDeser_hasSelect _ _ _ _ _ hk]
            rfl
          cases par with
          | none =>
            simp only [] at h
            injection h with h
            subst h
            exact hsel
          | some p =>
            simp only [] at h
            by_cases hp : pyTruthyInt p = true
            · rw [if_pos hp] at h
              injection h with h
              subst h
              exact hsel
            · rw [if_neg hp] at h
              injection h with h
              subst h
              exact hsel

/-- The engine-provided kafka columns used by the C8 witness: payload
plus five metadata columns. -/
def c8EngineCols : List String :=
  ["key", "value", "topic", "partition", "offset", "timestamp", "timestampType"]

/-- The engine-loaded frame of the C8 witness run. -/
def c8BaseDf : Df :=
  Df.source (EngineCall.kafkaLoad
    [("kafka.bootstrap.servers", Val.s "h:9092"), ("subscribe", Val.s "t")]) c8EngineCols

/-- Witness for C8: with the default `include_meta_cols` the concrete
run returns exactly `key`, `value` although the engine exposed seven
columns; with `include_meta_cols=True` the returned frame carries no
projection. -/
theorem c8_meta_cols_projection_witness :
    (Df.select c8BaseDf ["key", "value"]).columns = ["key", "value"] ∧
    c8BaseDf.hasSelect = false :=
  ⟨(c8_meta_cols_projection "h" (TopicArg.one "t") none none none none 9092 none none none
      c8EngineCols (Df.select c8BaseDf ["key", "value"])).1 rfl rfl,
   (c8_meta_cols_projection "h" (TopicArg.one "t") none none none none 9092 none none
      (some true) c8EngineCols c8BaseDf).2 rfl rfl⟩

/-- The only error `kafkaReaderOptions` can produce is the multi-topic
`InvalidArgumentError`. -/
theorem kafkaReaderOptions_error (host : String) (port : Int) (topics : List String)
    (ranges : Option (List (Int × Int × Int))) (e : Err)
    (h : kafkaReaderOptions host port topics ranges = .error e) :
    e = .invalidArgument kafkaMultiTopicMsg := by
  rw [kafkaReaderOptions] at h
  by_cases h1 : pyTruthyRanges ranges = true
  · rw [if_pos h1] at h
    by_cases h2 : topics.length > 1
    · rw [if_pos h2] at h
      injection h with h
      exact h.symm
    · rw [if_neg h2] at h
      cases h
  · rw [if_neg h1] at h
    cases h

/-- A frame that rebinds `name` to the typed udf application carries
that deserializer application. -/
theorem appliesDeser_withColumn_self (d : Df) (name : String) (f : Nat) (dt : DataType) :
    (Df.withColumn d name (ColExpr.udfApp f dt (ColExpr.col name))).appliesDeser name f dt
      = true := by
  simp [Df.appliesDeser]

/-- C4: for every kafka read supplying a key or value deserializer —
without a schema the call fails with `InvalidArgumentError`; with a
schema lacking the field `key` (respectively `value`) it fails with
`InvalidArgumentError` naming the missing field (provided the read
passed the offset-ranges gate, which raises its own error first);
otherwise the deserializer is applied to that column as a udf
transform whose declared result type is the matching schema field's
`dataType` (the first filter candidate, as in the source). -/
theorem c4_deserializer_validation
    (host : String) (topic : TopicArg) (ranges : Option (List (Int × Int × Int)))
    (f : Nat) (s : StructType) (port : Int) (par : Option Int)
    (opts : Option Dict) (imc : Option Bool) (cols : List String) :
    (∀ vd, ∃ m, (kafka host topic ranges (some f) vd none port par opts imc cols).1 =
      .error (.invalidArgument m)) ∧
    (∃ m, (kafka host topic ranges none (some f) none port par opts imc cols).1 =
      .error (.invalidArgument m)) ∧
    (∀ ro vd, kafkaReaderOptions host port topic.toList ranges = .ok ro →
      s.fields.filter (fun x => x.name = "key") = [] →
      (kafka host topic ranges (some f) vd (some s) port par opts imc cols).1 =
        .error (.invalidArgument ("Cannot find field: key in schema: " ++ s.simpleString))) ∧
    (∀ ro, kafkaReaderOptions host port topic.toList ranges = .ok ro →
      s.fields.filter (fun x => x.name = "value") = [] →
      (kafka host topic ranges none (some f) (some s) port par opts imc cols).1 =
        .error (.invalidArgument ("Cannot find field: value in schema: " ++ s.simpleString))) ∧
    (∀ ro fld rest, kafkaReaderOptions host port topic.toList ranges = .ok ro →
      s.fields.filter (fun x => x.name = "key") = fld :: rest →
      ∃ df, (kafka host topic ranges (some f) none (some s) port par opts imc cols).1 =
        .ok df ∧ df.appliesDeser "key" f fld.dataType = true) ∧
    (∀ ro fld rest, kafkaReaderOptions host port topic.toList ranges = .ok ro →
      s.fields.filter (fun x => x.name = "value") = fld :: rest →
      ∃ df, (kafka host topic ranges none (some f) (some s) port par opts imc cols).1 =
        .ok df ∧ df.appliesDeser "value" f fld.dataType = true) := by
  refine ⟨?_, ?_, ?_, ?_, ?_, ?_⟩
  · intro vd
    cases hro : kafkaReaderOptions host port topic.toList ranges with
    | error e =>
      refine ⟨kafkaMultiTopicMsg, ?_⟩
      rw [kafka, hro, kafkaReaderOptions_error _ _ _ _ _ hro]
    | ok ro =>
      refine ⟨"Cannot use a deserializer without specifying schema", ?_⟩
      rw [kafka, hro]
      rfl
  · cases hro : kafkaReaderOptions host port topic.toList ranges with
    | error e =>
      refine ⟨kafkaMultiTopicMsg, ?_⟩
      rw [kafka, hro, kafkaReaderOptions_error _ _ _ _ _ hro]
    | ok ro =>
      refine ⟨"Cannot use a deserializer without specifying schema", ?_⟩
      rw [kafka, hro]
      rfl
  · intro ro vd hro hfil
    have hks : kafkaGetSchema (some s) "key" = .error (.invalidArgument
        ("Cannot find field: " ++ "key" ++ " in schema: " ++ s.simpleString)) := by
      simp only [kafkaGetSchema, hfil]
    rw [kafka, hro]
    simp only [kafkaApplyDeser, hks]
    rfl
  · intro ro hro hfil
    have hks : kafkaGetSchema (some s) "value" = .error (.invalidArgument
        ("Cannot find field: " ++ "value" ++ " in schema: " ++ s.simpleString)) := by
      simp only [kafkaGetSchema, hfil]
    rw [kafka, hro]
    simp only [kafkaApplyDeser, hks]
    rfl
  · intro ro fld rest hro hfil
    have hks : kafkaGetSchema (some s) "key" = .ok fld.dataType := by
      simp only [kafkaGetSchema, hfil]
    have hap : ∀ d : Df, kafkaApplyDeser d "key" (some f) (some s) =
        .ok (Df.withColumn d "key" (ColExpr.udfApp f fld.dataType (ColExpr.col "key"))) := by
      intro d
      simp only [kafkaApplyDeser, hks]
    rw [kafka, hro]
    simp only [hap]
    simp only [kafkaApplyDeser]
    refine ⟨_, rfl, ?_⟩
    cases par with
    | none =>
      by_cases him : (!pyTruthyOptBool imc) = true <;>
        simp [him, Df.appliesDeser]
    | some p =>
      by_cases him : (!pyTruthyOptBool imc) = true <;>
        by_cases hp : pyTruthyInt p = true <;>
          simp [him, hp, Df.appliesDeser]
  · intro ro fld rest hro hfil
    have hks : kafkaGetSchema (some s) "value" = .ok fld.dataType := by
      simp only [kafkaGetSchema, hfil]
    rw [kafka, hro]
    simp only [kafkaApplyDeser]
    simp only [hks]
    refine ⟨_, rfl, ?_⟩
    cases par with
    | none =>
      by_cases him : (!pyTruthyOptBool imc) = true <;>
        simp [him, Df.appliesDeser]
    | some p =>
      by_cases him : (!pyTruthyOptBool imc) = true <;>
        by_cases hp : pyTruthyInt p = true <;>
          simp [him, hp, Df.appliesDeser]

/-- A schema with a `value` field but no `key` field. -/
def c4SchemaNoKey : StructType := ⟨[⟨"value", DataType.string⟩]⟩

/-- A schema with both `key` and `value` fields. -/
def c4SchemaKey : StructType := ⟨[⟨"key", DataType.binary⟩, ⟨"value", DataType.string⟩]⟩

/-- Witness for C4 at concrete inputs: a key deserializer without a
schema fails with `InvalidArgumentError`; with a schema lacking `key`
the message names the missing field; with a `key:binary` field present
the read succeeds and applies the deserializer at type `binary`. -/
theorem c4_deserializer_validation_witness :
    (∃ m, (kafka "h" (TopicArg.one "t") none (some 0) none none 9092 none none none []).1 =
      .error (.invalidArgument m)) ∧
    (kafka "h" (TopicArg.one "t") none (some 0) none (some c4SchemaNoKey) 9092 none none
        none []).1 =
      .error (.invalidArgument "Cannot find field: key in schema: struct<value:string>") ∧
    (∃ df, (kafka "h" (TopicArg.one "t") none (some 0) none (some c4SchemaKey) 9092 none
        none none []).1 = .ok df ∧ df.appliesDeser "key" 0 DataType.binary = true) :=
  ⟨(c4_deserializer_validation "h" (TopicArg.one "t") none 0 c4SchemaNoKey 9092 none none
      none []).1 none,
   (c4_deserializer_validation "h" (TopicArg.one "t") none 0 c4SchemaNoKey 9092 none none
      none []).2.2.1 [("kafka.bootstrap.servers", Val.s "h:9092"), ("subscribe", Val.s "t")]
      none rfl rfl,
   (c4_deserializer_validation "h" (TopicArg.one "t") none 0 c4SchemaKey 9092 none none
      none []).2.2.2.2.1 [("kafka.bootstrap.servers", Val.s "h:9092"), ("subscribe", Val.s "t")]
      ⟨"key", DataType.binary⟩ [] rfl rfl⟩

/-- The parse result of `foo://x?parallelism=abc`. -/
def urlFooBadPar : ParsedUrl :=
  { scheme := "foo", host := "x", port := none, path := "", query := [("parallelism", "abc")] }

/-- C5 counterexample: for the unregistered-scheme URL
`foo://x?parallelism=abc`, `by_url` fails with the plain `ValueError`
of the generic parallelism coercion — which runs before scheme
dispatch — and not with the unsupported-scheme `NotImplementedError`
carrying the URL, refuting the claim as universally stated. -/
theorem c5_counterexample_coercion_preempts :
    by_url "foo://x?parallelism=abc" urlFooBadPar [] =
      (.error (.valueError ("invalid literal for int() with base 10: \x27abc\x27")), []) ∧
    raisedNotImplemented (by_url "foo://x?parallelism=abc" urlFooBadPar []) = false :=
  ⟨rfl, rfl⟩

/-- C5 amended: for every URL whose scheme is unregistered and whose
query string passes the generic parallelism coercion, `by_url` fails
with `NotImplementedError` whose message carries the original URL
string, and no engine call is made (in particular no generic
attribute-lookup fault escapes: the `getattr` failure is caught and
converted). -/
theorem c5_unknown_scheme_not_implemented (url : String) (u : ParsedUrl)
    (cols : List String) (qs : Dict)
    (hq : coerceParallelism (dictOfPairs u.query) = .ok qs)
    (hs : u.scheme ∉ registeredSchemes) :
    by_url url u cols =
      (.error (.notImplemented ("Data source is not supported: " ++ url)), []) := by
  simp only [registeredSchemes, List.mem_cons, List.not_mem_nil, or_false, not_or] at hs
  obtain ⟨h1, h2, h3, h4, h5, h6⟩ := hs
  have hby : by_url url u cols = dispatchScheme url u qs cols := by rw [by_url, hq]
  rw [hby, dispatchScheme, if_neg h1, if_neg h2, if_neg h3, if_neg h4, if_neg h5, if_neg h6]

/-- The parse result of `foo://x`. -/
def urlFooPlain : ParsedUrl :=
  { scheme := "foo", host := "x", port := none, path := "", query := [] }

/-- Witness for the amended C5 at `foo://x`. -/
theorem c5_unknown_scheme_not_implemented_witness :
    by_url "foo://x" urlFooPlain [] =
      (.error (.notImplemented ("Data source is not supported: " ++ "foo://x")), []) :=
  c5_unknown_scheme_not_implemented "foo://x" urlFooPlain [] [] rfl (by decide)

/-- The parse result of `csv://d/f?parallelism=x3`. -/
def urlCsvBadPar : ParsedUrl :=
  { scheme := "csv", host := "d", port := none, path := "/f",
    query := [("parallelism", "x3")] }

/-- C6 counterexample: a non-numeric `parallelism` value makes
`by_url` fail with the unstructured `ValueError` of the `int()`
builtin, not with the typed `InvalidArgumentError` the claim
requires. -/
theorem c6_counterexample_untyped_valueerror :
    by_url "csv://d/f?parallelism=x3" urlCsvBadPar [] =
      (.error (.valueError ("invalid literal for int() with base 10: \x27x3\x27")), []) ∧
    raisedInvalidArgument (by_url "csv://d/f?parallelism=x3" urlCsvBadPar []) = false :=
  ⟨rfl, rfl⟩

/-- C6 amended: for every URL whose query string carries a
`parallelism` key with a non-numeric value, `by_url` fails with the
plain `ValueError` of `int()` during query-string coercion, before any
resolver or engine call (the engine-call trace is empty). -/
theorem c6_parallelism_coercion_valueerror (url : String) (u : ParsedUrl)
    (cols : List String) (v : String)
    (hv : Py.lookup (dictOfPairs u.query) "parallelism" = some (Val.s v))
    (hbad : pyInt v = none) :
    by_url url u cols =
      (.error (.valueError ("invalid literal for int() with base 10: " ++ pyReprQuote v)),
       []) := by
  have hcon : Py.contains (dictOfPairs u.query) "parallelism" = true := by
    rw [Py.contains, hv]
    rfl
  have hval : valToIntExc (Val.s v) = .error (.valueError
      ("invalid literal for int() with base 10: " ++ pyReprQuote v)) := by
    simp only [valToIntExc, hbad]
  have hc : coerceParallelism (dictOfPairs u.query) = .error (.valueError
      ("invalid literal for int() with base 10: " ++ pyReprQuote v)) := by
    rw [coerceParallelism, if_pos hcon, hv]
    simp only []
    rw [hval]
  rw [by_url, hc]

/-- The parse result of `table://tname?parallelism=many`. -/
def urlTableBadPar : ParsedUrl :=
  { scheme := "table", host := "tname", port := none, path := "",
    query := [("parallelism", "many")] }

/-- Witness for the amended C6 at `table://tname?parallelism=many`. -/
theorem c6_parallelism_coercion_valueerror_witness :
    by_url "table://tname?parallelism=many" urlTableBadPar [] =
      (.error (.valueError ("invalid literal for int() with base 10: " ++ pyReprQuote "many")),
       []) :=
  c6_parallelism_coercion_valueerror "table://tname?parallelism=many" urlTableBadPar []
    "many" rfl rfl

/-- The parse result of `cassandra://h/ks` (a single path segment). -/
def urlCassandraShort : ParsedUrl :=
  { scheme := "cassandra", host := "h", port := none, path := "/ks", query := [] }

/-- C9 counterexample: a cassandra URL whose path lacks the table
segment fails with the unstructured `IndexError` of list indexing —
there is no typed location error in the code (the only typed argument
error, `InvalidArgumentError`, is not raised either). -/
theorem c9_counterexample_indexerror :
    by_url "cassandra://h/ks" urlCassandraShort [] = (.error .indexError, []) ∧
    raisedInvalidArgument (by_url "cassandra://h/ks" urlCassandraShort []) = false :=
  ⟨rfl, rfl⟩

/-- C9 amended: for cassandra and mysql URLs whose split path has no
segment at index 2 (fewer segments than the two the resolver needs),
`by_url` fails with the unstructured `IndexError`, before any engine
call. -/
theorem c9_missing_segments_unstructured (url : String) (u : ParsedUrl)
    (cols : List String) (qs : Dict)
    (hq : coerceParallelism (dictOfPairs u.query) = .ok qs) :
    (u.scheme = "cassandra" → (pySplit u.path '/').get? 2 = none →
      by_url url u cols = (.error .indexError, [])) ∧
    (u.scheme = "mysql" → (pySplit u.path '/').get? 2 = none →
      by_url url u cols = (.error .indexError, [])) := by
  have hby : by_url url u cols = dispatchScheme url u qs cols := by rw [by_url, hq]
  constructor
  · intro hs hseg
    rw [hby, dispatchScheme, if_pos hs, resolveCassandra]
    simp only []
    cases hseg1 : (pySplit u.path '/').get? 1 with
    | none => simp only [hseg1]
    | some ks =>
      simp only [hseg1]
      simp only [hseg]
  · intro hs hseg
    have hs1 : ¬(u.scheme = "cassandra") := by rw [hs]; decide
    have hs2 : ¬(u.scheme = "csv") := by rw [hs]; decide
    have hs3 : ¬(u.scheme = "elastic") := by rw [hs]; decide
    rw [hby, dispatchScheme, if_neg hs1, if_neg hs2, if_neg hs3, if_pos hs, resolveMysql]
    simp only []
    cases hseg1 : (pySplit u.path '/').get? 1 with
    | none => simp only [hseg1]
    | some db =>
      simp only [hseg1]
      simp only [hseg]

/-- The parse result of `mysql://h/db` (a single path segment). -/
def urlMysqlShort : ParsedUrl :=
  { scheme := "mysql", host := "h", port := none, path := "/db", query := [] }

/-- Witness for the amended C9 at `mysql://h/db`. -/
theorem c9_missing_segments_unstructured_witness :
    by_url "mysql://h/db" urlMysqlShort [] = (.error .indexError, []) :=
  (c9_missing_segments_unstructured "mysql://h/db" urlMysqlShort [] [] rfl).2 rfl rfl

/-- After a successful query-string coercion, `by_url` is the scheme
dispatch on the coerced dict. -/
theorem by_url_dispatch (url : String) (u : ParsedUrl) (cols : List String) (qs : Dict)
    (hq : coerceParallelism (dictOfPairs u.query) = .ok qs) :
    by_url url u cols = dispatchScheme url u qs cols := by
  rw [by_url, hq]

theorem dispatchScheme_cassandra (url : String) (u : ParsedUrl) (qs : Dict)
    (cols : List String) (h : u.scheme = "cassandra") :
    dispatchScheme url u qs cols = resolveCassandra u qs cols := by
  rw [dispatchScheme, if_pos h]

theorem dispatchScheme_csv (url : String) (u : ParsedUrl) (qs : Dict)
    (cols : List String) (h : u.scheme = "csv") :
    dispatchScheme url u qs cols = resolveCsv u qs cols := by
  rw [dispatchScheme, if_neg (by rw [h]; decide), if_pos h]

theorem dispatchScheme_elastic (url : String) (u : ParsedUrl) (qs : Dict)
    (cols : List String) (h : u.scheme = "elastic") :
    dispatchScheme url u qs cols = resolveElastic u qs cols := by
  rw [dispatchScheme, if_neg (by rw [h]; decide), if_neg (by rw [h]; decide), if_pos h]

theorem dispatchScheme_mysql (url : String) (u : ParsedUrl) (qs : Dict)
    (cols : List String) (h : u.scheme = "mysql") :
    dispatchScheme url u qs cols = resolveMysql u qs cols := by
  rw [dispatchScheme, if_neg (by rw [h]; decide), if_neg (by rw [h]; decide),
    if_neg (by rw [h]; decide), if_pos h]

theorem dispatchScheme_parquet (url : String) (u : ParsedUrl) (qs : Dict)
    (cols : List String) (h : u.scheme = "parquet") :
    dispatchScheme url u qs cols = resolveParquet u qs cols := by
  rw [dispatchScheme, if_neg (by rw [h]; decide), if_neg (by rw [h]; decide),
    if_neg (by rw [h]; decide), if_neg (by rw [h]; decide), if_pos h]

theorem dispatchScheme_table (url : String) (u : ParsedUrl) (qs : Dict)
    (cols : List String) (h : u.scheme = "table") :
    dispatchScheme url u qs cols = resolveTable u qs cols := by
  rw [dispatchScheme, if_neg (by rw [h]; decide), if_neg (by rw [h]; decide),
    if_neg (by rw [h]; decide), if_neg (by rw [h]; decide), if_neg (by rw [h]; decide),
    if_pos h]

/-- Erasing any key preserves absence of a key. -/
theorem Py.lookup_erase_none [DecidableEq κ] (d : List (κ × α)) (k k' : κ)
    (h : Py.lookup d k = none) : Py.lookup (Py.erase d k') k = none := by
  induction d with
  | nil => rfl
  | cons kv rest ih =>
    have hne : ¬(kv.1 = k) := by
      intro hh
      simp [Py.lookup, hh] at h
    have h2 : Py.lookup rest k = none := by simpa [Py.lookup, hne] using h
    rw [Py.erase]
    by_cases hh : kv.1 = k'
    · rw [if_pos hh]
      exact h2
    · rw [if_neg hh, Py.lookup, if_neg hne]
      exact ih h2

theorem lookup_insertIfTruthy_ne (d : Dict) (key k : String) (v : Option Val)
    (h : k ≠ key) : Py.lookup (insertIfTruthy d key v) k = Py.lookup d k := by
  rw [insertIfTruthy]
  by_cases hc : pyTruthyOptVal v = true
  · rw [if_pos hc, Py.lookup_insert_ne _ _ h]
  · rw [if_neg hc]

theorem lookup_insertPortOpt_ne (d : Dict) (key k : String) (p : Option Nat)
    (h : k ≠ key) : Py.lookup (insertPortOpt d key p) k = Py.lookup d k := by
  rw [insertPortOpt]
  by_cases hc : pyTruthyOptNat p = true
  · rw [if_pos hc, Py.lookup_insert_ne _ _ h]
  · rw [if_neg hc]

theorem lookup_insertFieldsOpt_ne (d : Dict) (k : String) (fl : Option (List String))
    (h : k ≠ "es.read.field.include") :
    Py.lookup (insertFieldsOpt d fl) k = Py.lookup d k := by
  cases fl with
  | none => rfl
  | some fs =>
    rw [insertFieldsOpt]
    by_cases hc : (!fs.isEmpty) = true
    · rw [if_pos hc, Py.lookup_insert_ne _ _ h]
    · rw [if_neg hc]

theorem contains_insertIfTruthy (d : Dict) (key k : String) (v : Option Val)
    (h : Py.contains d k = true) : Py.contains (insertIfTruthy d key v) k = true := by
  rw [insertIfTruthy]
  by_cases hc : pyTruthyOptVal v = true
  · rw [if_pos hc]
    exact Py.contains_insert_of_contains _ _ _ _ h
  · rw [if_neg hc]
    exact h

theorem contains_insertPortOpt (d : Dict) (key k : String) (p : Option Nat)
    (h : Py.contains d k = true) : Py.contains (insertPortOpt d key p) k = true := by
  rw [insertPortOpt]
  by_cases hc : pyTruthyOptNat p = true
  · rw [if_pos hc]
    exact Py.contains_insert_of_contains _ _ _ _ h
  · rw [if_neg hc]
    exact h

/-- The four required cassandra configuration keys and their values in
the resolver-built options dict. -/
theorem cassandraOptions_lookups (host ks tbl : String) (cons : Option Val)
    (prt : Option Nat) :
    Py.lookup (cassandraOptions host ks tbl cons prt) "format" =
      some (Val.s "org.apache.spark.sql.cassandra") ∧
    Py.lookup (cassandraOptions host ks tbl cons prt) "spark.cassandra.connection.host" =
      some (Val.s host) ∧
    Py.lookup (cassandraOptions host ks tbl cons prt) "keyspace" = some (Val.s ks) ∧
    Py.lookup (cassandraOptions host ks tbl cons prt) "table" = some (Val.s tbl) := by
  refine ⟨?_, ?_, ?_, ?_⟩ <;>
    · rw [cassandraOptions]
      rw [lookup_insertPortOpt_ne _ _ _ _ (by decide),
        lookup_insertIfTruthy_ne _ _ _ _ (by decide)]
      rfl

/-- `format`, `es.nodes` and (for a truthy port) `es.port` in the
elastic resolver-built options dict. -/
theorem elasticOptions_lookups (host esIndex : String) (esType : Option String)
    (query : String) (fields : Option (List String)) (prt : Option Nat) :
    Py.lookup (elasticOptions host esIndex esType query fields prt) "format" =
      some (Val.s "org.elasticsearch.spark.sql") ∧
    Py.lookup (elasticOptions host esIndex esType query fields prt) "es.nodes" =
      some (Val.s host) ∧
    (pyTruthyOptNat prt = true →
      Py.lookup (elasticOptions host esIndex esType query fields prt) "es.port" =
        some (Val.s (toString (prt.getD 0)))) := by
  refine ⟨?_, ?_, ?_⟩
  · rw [elasticOptions]
    rw [lookup_insertPortOpt_ne _ _ _ _ (by decide),
      lookup_insertFieldsOpt_ne _ _ _ (by decide)]
    rfl
  · rw [elasticOptions]
    rw [lookup_insertPortOpt_ne _ _ _ _ (by decide),
      lookup_insertFieldsOpt_ne _ _ _ (by decide)]
    rfl
  · intro hp
    rw [elasticOptions]
    rw [insertPortOpt, if_pos hp, Py.lookup_insert_self]

/-- The engine call made by the cassandra resolver: one generic load
whose kwargs merge the popped-down query dict over the resolver
options. -/
theorem resolveCassandra_shape (u : ParsedUrl) (qs : Dict) (cols : List String)
    (ks tbl : String) (h1 : (pySplit u.path '/').get? 1 = some ks)
    (h2 : (pySplit u.path '/').get? 2 = some tbl) :
    (resolveCassandra u qs cols).2 =
      [EngineCall.load (Py.update
        (cassandraOptions u.hostname ks tbl (Py.lookup qs "consistency") u.port)
        (Py.erase (Py.erase qs "consistency") "parallelism"))] := by
  rw [resolveCassandra]
  simp only [h1, h2]
  rfl

/-- The engine call made by the mysql resolver. -/
theorem resolveMysql_shape (u : ParsedUrl) (qs : Dict) (cols : List String)
    (db tbl : String) (h1 : (pySplit u.path '/').get? 1 = some db)
    (h2 : (pySplit u.path '/').get? 2 = some tbl) :
    (resolveMysql u qs cols).2 =
      [EngineCall.load (Py.update (mysqlOptions u.hostname db tbl u.port)
        (Py.erase qs "parallelism"))] := by
  rw [resolveMysql]
  simp only [h1, h2]
  rfl

/-- The engine call made by the elastic resolver: one generic load
whose kwargs merge the remaining query dict (everything the resolver
popped removed, hence no new keys) over the elastic options built from
the netloc. -/
theorem resolveElastic_shape (u : ParsedUrl) (qs : Dict) (cols : List String)
    (esIndex : String) (hseg : (pySplit u.path '/').get? 1 = some esIndex) :
    ∃ q fl qs3, (resolveElastic u qs cols).2 =
        [EngineCall.load (Py.update
          (elasticOptions u.netloc esIndex ((pySplit u.path '/').get? 2) q fl u.port) qs3)] ∧
      (∀ k, Py.lookup qs k = none → Py.lookup qs3 k = none) := by
  rw [resolveElastic]
  simp only [Py.pop]
  by_cases hq1 : Py.contains qs "q" = true
  · rw [if_pos hq1]
    simp only []
    by_cases hf1 : Py.contains (Py.erase qs "q") "fields" = true
    · rw [if_pos hf1]
      simp only [hseg]
      refine ⟨_, _, _, rfl, ?_⟩
      intro k hk
      exact Py.lookup_erase_none _ _ _ (Py.lookup_erase_none _ _ _
        (Py.lookup_erase_none _ _ _ hk))
    · rw [if_neg hf1]
      simp only [hseg]
      refine ⟨_, _, _, rfl, ?_⟩
      intro k hk
      exact Py.lookup_erase_none _ _ _ (Py.lookup_erase_none _ _ _ hk)
  · rw [if_neg hq1]
    simp only []
    by_cases hf1 : Py.contains qs "fields" = true
    · rw [if_pos hf1]
      simp only [hseg]
      refine ⟨_, _, _, rfl, ?_⟩
      intro k hk
      exact Py.lookup_erase_none _ _ _ (Py.lookup_erase_none _ _ _ hk)
    · rw [if_neg hf1]
      simp only [hseg]
      refine ⟨_, _, _, rfl, ?_⟩
      intro k hk
      exact Py.lookup_erase_none _ _ _ hk

/-- The parse result of `table://my_table`. -/
def urlTableEx : ParsedUrl :=
  { scheme := "table", host := "my_table", port := none, path := "", query := [] }

/-- C1 counterexample: resolving the well-formed `table://my_table`
URL invokes the engine through the catalog-table entry point
`spark.table(name)`, which receives no configuration map at all — so
no engine call of the run carries a `format` discriminator key,
refuting the claim for the `table` scheme. -/
theorem c1_counterexample_table_no_format :
    by_url "table://my_table" urlTableEx ["a"] =
      (.ok (Df.source (EngineCall.tableRead "my_table") ["a"]),
       [EngineCall.tableRead "my_table"]) ∧
    (by_url "table://my_table" urlTableEx ["a"]).2.all
      (fun c => !engineCallHasFormatKey c) = true :=
  ⟨rfl, rfl⟩

/-- C1 amended: for the four schemes resolved through the generic
loader — cassandra, elastic, mysql, parquet — a well-formed URL (path
segments present, query free of a caller `format` override, coercible
parallelism) produces a single generic load call whose kwargs contain
the `format` key with that backend's discriminator
(`org.apache.spark.sql.cassandra`, `org.elasticsearch.spark.sql`,
`jdbc`, the scheme name for parquet).  The csv scheme instead invokes
the engine's dedicated csv reader with the URL path (no `format` key
is built by this layer), and the table scheme invokes the catalog
lookup with no configuration map at all. -/
theorem c1_format_discriminators :
    (∀ url u cols qs ks tbl, u.scheme = "cassandra" →
      coerceParallelism (dictOfPairs u.query) = .ok qs →
      (pySplit u.path '/').get? 1 = some ks →
      (pySplit u.path '/').get? 2 = some tbl →
      Py.contains qs "format" = false →
      ∃ m, (by_url url u cols).2 = [EngineCall.load m] ∧
        Py.lookup m "format" = some (Val.s "org.apache.spark.sql.cassandra")) ∧
    (∀ url u cols qs esIndex, u.scheme = "elastic" →
      coerceParallelism (dictOfPairs u.query) = .ok qs →
      (pySplit u.path '/').get? 1 = some esIndex →
      Py.contains qs "format" = false →
      ∃ m, (by_url url u cols).2 = [EngineCall.load m] ∧
        Py.lookup m "format" = some (Val.s "org.elasticsearch.spark.sql")) ∧
    (∀ url u cols qs db tbl, u.scheme = "mysql" →
      coerceParallelism (dictOfPairs u.query) = .ok qs →
      (pySplit u.path '/').get? 1 = some db →
      (pySplit u.path '/').get? 2 = some tbl →
      Py.contains qs "format" = false →
      ∃ m, (by_url url u cols).2 = [EngineCall.load m] ∧
        Py.lookup m "format" = some (Val.s "jdbc")) ∧
    (∀ url u cols qs, u.scheme = "parquet" →
      coerceParallelism (dictOfPairs u.query) = .ok qs →
      Py.contains qs "format" = false →
      ∃ m, (by_url url u cols).2 = [EngineCall.load m] ∧
        Py.lookup m "format" = some (Val.s "parquet")) ∧
    (∀ url u cols qs, u.scheme = "csv" →
      coerceParallelism (dictOfPairs u.query) = .ok qs →
      ∃ opts2, (by_url url u cols).2 = [EngineCall.csvRead u.path opts2]) ∧
    (∀ url u cols qs, u.scheme = "table" →
      coerceParallelism (dictOfPairs u.query) = .ok qs →
      (by_url url u cols).2 = [EngineCall.tableRead u.netloc]) := by
  refine ⟨?_, ?_, ?_, ?_, ?_, ?_⟩
  · intro url u cols qs ks tbl hs hq h1 h2 hfmt
    rw [by_url_dispatch url u cols qs hq, dispatchScheme_cassandra _ _ _ _ hs]
    refine ⟨_, resolveCassandra_shape u qs cols ks tbl h1 h2, ?_⟩
    have hnone : Py.lookup (Py.erase (Py.erase qs "consistency") "parallelism")
        "format" = none :=
      Py.lookup_erase_none _ _ _ (Py.lookup_erase_none _ _ _
        (Py.lookup_none_of_contains_false _ _ hfmt))
    rw [Py.lookup_update_none _ _ _ hnone]
    exact (cassandraOptions_lookups _ _ _ _ _).1
  · intro url u cols qs esIndex hs hq hseg hfmt
    rw [by_url_dispatch url u cols qs hq, dispatchScheme_elastic _ _ _ _ hs]
    obtain ⟨q, fl, qs3, htr, hpres⟩ := resolveElastic_shape u qs cols esIndex hseg
    refine ⟨_, htr, ?_⟩
    rw [Py.lookup_update_none _ _ _ (hpres _ (Py.lookup_none_of_contains_false _ _ hfmt))]
    exact (elasticOptions_lookups _ _ _ _ _ _).1
  · intro url u cols qs db tbl hs hq h1 h2 hfmt
    rw [by_url_dispatch url u cols qs hq, dispatchScheme_mysql _ _ _ _ hs]
    refine ⟨_, resolveMysql_shape u qs cols db tbl h1 h2, ?_⟩
    rw [Py.lookup_update_none _ _ _ (Py.lookup_erase_none _ _ _
      (Py.lookup_none_of_contains_false _ _ hfmt))]
    rfl
  · intro url u cols qs hs hq hfmt
    rw [by_url_dispatch url u cols qs hq, dispatchScheme_parquet _ _ _ _ hs]
    refine ⟨Py.update [("path", Val.s u.path), ("format", Val.s u.scheme)]
      (Py.erase qs "parallelism"), rfl, ?_⟩
    rw [Py.lookup_update_none _ _ _ (Py.lookup_erase_none _ _ _
      (Py.lookup_none_of_contains_false _ _ hfmt))]
    rw [hs]
    rfl
  · intro url u cols qs hs hq
    rw [by_url_dispatch url u cols qs hq, dispatchScheme_csv _ _ _ _ hs]
    exact ⟨_, rfl⟩
  · intro url u cols qs hs hq
    rw [by_url_dispatch url u cols qs hq, dispatchScheme_table _ _ _ _ hs]
    rfl

/-- The parse results of the six witness URLs of C1. -/
def urlCassandraEx : ParsedUrl :=
  { scheme := "cassandra", host := "h", port := none, path := "/ks/tbl", query := [] }

def urlElasticEx : ParsedUrl :=
  { scheme := "elastic", host := "eh", port := some 9200, path := "/idx", query := [] }

def urlMysqlEx : ParsedUrl :=
  { scheme := "mysql", host := "mh", port := none, path := "/db/tbl", query := [] }

def urlParquetEx : ParsedUrl :=
  { scheme := "parquet", host := "b", port := none, path := "/dir", query := [] }

def urlCsvEx : ParsedUrl :=
  { scheme := "csv", host := "d", port := none, path := "/f", query := [] }

def urlTableEx2 : ParsedUrl :=
  { scheme := "table", host := "tn", port := none, path := "", query := [] }

/-- Witness for the amended C1 at one concrete well-formed URL per
scheme. -/
theorem c1_format_discriminators_witness :
    (∃ m, (by_url "cassandra://h/ks/tbl" urlCassandraEx []).2 = [EngineCall.load m] ∧
      Py.lookup m "format" = some (Val.s "org.apache.spark.sql.cassandra")) ∧
    (∃ m, (by_url "elastic://eh:9200/idx" urlElasticEx []).2 = [EngineCall.load m] ∧
      Py.lookup m "format" = some (Val.s "org.elasticsearch.spark.sql")) ∧
    (∃ m, (by_url "mysql://mh/db/tbl" urlMysqlEx []).2 = [EngineCall.load m] ∧
      Py.lookup m "format" = some (Val.s "jdbc")) ∧
    (∃ m, (by_url "parquet://b/dir" urlParquetEx []).2 = [EngineCall.load m] ∧
      Py.lookup m "format" = some (Val.s "parquet")) ∧
    (∃ opts2, (by_url "csv://d/f" urlCsvEx []).2 =
      [EngineCall.csvRead urlCsvEx.path opts2]) ∧
    (by_url "table://tn" urlTableEx2 []).2 = [EngineCall.tableRead urlTableEx2.netloc] :=
  ⟨c1_format_discriminators.1 "cassandra://h/ks/tbl" urlCassandraEx [] [] "ks" "tbl"
      rfl rfl rfl rfl rfl,
   c1_format_discriminators.2.1 "elastic://eh:9200/idx" urlElasticEx [] [] "idx"
      rfl rfl rfl rfl,
   c1_format_discriminators.2.2.1 "mysql://mh/db/tbl" urlMysqlEx [] [] "db" "tbl"
      rfl rfl rfl rfl rfl,
   c1_format_discriminators.2.2.2.1 "parquet://b/dir" urlParquetEx [] [] rfl rfl rfl,
   c1_format_discriminators.2.2.2.2.1 "csv://d/f" urlCsvEx [] [] rfl rfl,
   c1_format_discriminators.2.2.2.2.2 "table://tn" urlTableEx2 [] [] rfl rfl⟩

/-- The parse result of `cassandra://h/ks/tbl?keyspace=evil`. -/
def urlCassandraOverride : ParsedUrl :=
  { scheme := "cassandra", host := "h", port := none, path := "/ks/tbl",
    query := [("keyspace", "evil")] }

/-- C7 counterexample: the structural key `keyspace`, set by the
cassandra resolver to the path segment `ks`, is overridden by the
caller-supplied query parameter `keyspace=evil` in the map handed to
the engine — structural keys are not resolver-controlled. -/
theorem c7_counterexample_structural_override :
    Py.lookup (traceLoadOpts
      (by_url "cassandra://h/ks/tbl?keyspace=evil" urlCassandraOverride []))
      "keyspace" = some (Val.s "evil") := rfl

/-- C7 amended: in the generic loader `_basic_read` the map handed to
the engine is exactly `reader_options.update(additional_options)`:
every resolver-set key stays present, and caller-supplied options are
merged last and win on every conflict — including structural keys
(format, host, keyspace, table, path), which the resolver does not
protect.  For the cassandra reader all four required keys are present
in the merged map. -/
theorem c7_merge_caller_wins :
    (∀ ro opts par cols,
      traceLoadOpts (basicRead ro (some opts) par cols) = Py.update ro opts) ∧
    (∀ ro opts par cols k, Py.contains ro k = true →
      Py.contains (traceLoadOpts (basicRead ro (some opts) par cols)) k = true) ∧
    (∀ ro opts par cols k, Py.keysNodup opts = true → Py.contains opts k = true →
      Py.lookup (traceLoadOpts (basicRead ro (some opts) par cols)) k =
        Py.lookup opts k) ∧
    (∀ host ks tbl cons prt par opts cols,
      Py.contains (traceLoadOpts (cassandraRead host ks tbl cons prt par (some opts) cols))
        "format" = true ∧
      Py.contains (traceLoadOpts (cassandraRead host ks tbl cons prt par (some opts) cols))
        "spark.cassandra.connection.host" = true ∧
      Py.contains (traceLoadOpts (cassandraRead host ks tbl cons prt par (some opts) cols))
        "keyspace" = true ∧
      Py.contains (traceLoadOpts (cassandraRead host ks tbl cons prt par (some opts) cols))
        "table" = true) := by
  refine ⟨fun ro opts par cols => rfl, ?_, ?_, ?_⟩
  · intro ro opts par cols k h
    exact Py.contains_update_left _ _ _ h
  · intro ro opts par cols k hn hc
    cases hl : Py.lookup opts k with
    | none =>
      rw [Py.contains, hl] at hc
      simp at hc
    | some v =>
      exact Py.lookup_update_nodup _ _ _ _ hn hl
  · intro host ks tbl cons prt par opts cols
    have h := cassandraOptions_lookups host ks tbl cons prt
    refine ⟨?_, ?_, ?_, ?_⟩
    · exact Py.contains_update_left _ _ _ (by rw [Py.contains, h.1]; rfl)
    · exact Py.contains_update_left _ _ _ (by rw [Py.contains, h.2.1]; rfl)
    · exact Py.contains_update_left _ _ _ (by rw [Py.contains, h.2.2.1]; rfl)
    · exact Py.contains_update_left _ _ _ (by rw [Py.contains, h.2.2.2]; rfl)

/-- Witness for the amended C7: a required key stays present under
merge, and a caller-supplied `format` wins over the resolver
default. -/
theorem c7_merge_caller_wins_witness :
    Py.contains (traceLoadOpts (basicRead [("format", Val.s "jdbc")]
      (some [("user", Val.s "u")]) none [])) "format" = true ∧
    Py.lookup (traceLoadOpts (basicRead [("format", Val.s "jdbc")]
      (some [("format", Val.s "x")]) none [])) "format" =
      Py.lookup [("format", Val.s "x")] "format" :=
  ⟨c7_merge_caller_wins.2.1 [("format", Val.s "jdbc")] [("user", Val.s "u")] none []
      "format" rfl,
   c7_merge_caller_wins.2.2.1 [("format", Val.s "jdbc")] [("format", Val.s "x")] none []
      "format" rfl rfl⟩

/-- C10: for an elastic URL with an explicit non-zero port, the
resolver passes the full authority `host:port` (the netloc) as
`es.nodes` and additionally sets `es.port` to the port — unlike the
cassandra resolver (bare hostname in
`spark.cassandra.connection.host`) and the mysql resolver (bare
hostname inside the JDBC URL, the port as a separate `:port`
suffix). -/
theorem c10_elastic_netloc_and_port :
    (∀ url u cols qs esIndex p, u.scheme = "elastic" →
      coerceParallelism (dictOfPairs u.query) = .ok qs →
      u.port = some p → p ≠ 0 →
      (pySplit u.path '/').get? 1 = some esIndex →
      Py.contains qs "es.nodes" = false →
      Py.contains qs "es.port" = false →
      ∃ m, (by_url url u cols).2 = [EngineCall.load m] ∧
        Py.lookup m "es.nodes" = some (Val.s (u.host ++ ":" ++ toString p)) ∧
        Py.lookup m "es.port" = some (Val.s (toString p))) ∧
    (∀ url u cols qs ks tbl p, u.scheme = "cassandra" →
      coerceParallelism (dictOfPairs u.query) = .ok qs →
      u.port = some p →
      (pySplit u.path '/').get? 1 = some ks →
      (pySplit u.path '/').get? 2 = some tbl →
      Py.contains qs "spark.cassandra.connection.host" = false →
      ∃ m, (by_url url u cols).2 = [EngineCall.load m] ∧
        Py.lookup m "spark.cassandra.connection.host" = some (Val.s u.host)) ∧
    (∀ url u cols qs db tbl p, u.scheme = "mysql" →
      coerceParallelism (dictOfPairs u.query) = .ok qs →
      u.port = some p → p ≠ 0 →
      (pySplit u.path '/').get? 1 = some db →
      (pySplit u.path '/').get? 2 = some tbl →
      Py.contains qs "url" = false →
      ∃ m, (by_url url u cols).2 = [EngineCall.load m] ∧
        Py.lookup m "url" =
          some (Val.s ("jdbc:mysql://" ++ u.host ++ (":" ++ toString p) ++ "/" ++ db))) := by
  refine ⟨?_, ?_, ?_⟩
  · intro url u cols qs esIndex p hs hq hp hpz hseg hn1 hn2
    rw [by_url_dispatch url u cols qs hq, dispatchScheme_elastic _ _ _ _ hs]
    obtain ⟨q, fl, qs3, htr, hpres⟩ := resolveElastic_shape u qs cols esIndex hseg
    have hnet : u.netloc = u.host ++ ":" ++ toString p := by
      rw [ParsedUrl.netloc, hp]
    refine ⟨_, htr, ?_, ?_⟩
    · rw [Py.lookup_update_none _ _ _ (hpres _ (Py.lookup_none_of_contains_false _ _ hn1)),
        ← hnet]
      exact (elasticOptions_lookups _ _ _ _ _ _).2.1
    · rw [Py.lookup_update_none _ _ _ (hpres _ (Py.lookup_none_of_contains_false _ _ hn2)),
        hp]
      have hpt : pyTruthyOptNat (some p) = true := by
        simp [pyTruthyOptNat, hpz]
      exact (elasticOptions_lookups u.netloc esIndex ((pySplit u.path '/').get? 2)
        q fl (some p)).2.2 hpt
  · intro url u cols qs ks tbl p hs hq hp h1 h2 hn
    rw [by_url_dispatch url u cols qs hq, dispatchScheme_cassandra _ _ _ _ hs]
    refine ⟨_, resolveCassandra_shape u qs cols ks tbl h1 h2, ?_⟩
    rw [Py.lookup_update_none _ _ _ (Py.lookup_erase_none _ _ _ (Py.lookup_erase_none _ _ _
      (Py.lookup_none_of_contains_false _ _ hn)))]
    exact (cassandraOptions_lookups _ _ _ _ _).2.1
  · intro url u cols qs db tbl p hs hq hp hpz h1 h2 hn
    rw [by_url_dispatch url u cols qs hq, dispatchScheme_mysql _ _ _ _ hs]
    refine ⟨_, resolveMysql_shape u qs cols db tbl h1 h2, ?_⟩
    rw [Py.lookup_update_none _ _ _ (Py.lookup_erase_none _ _ _
      (Py.lookup_none_of_contains_false _ _ hn))]
    have hcond : (!decide (p = 0)) = true := by simp [hpz]
    have hps : portSuffix u.port = ":" ++ toString p := by
      rw [hp, portSuffix, if_pos hcond]
    rw [show Py.lookup (mysqlOptions u.hostname db tbl u.port) "url" =
        some (Val.s ("jdbc:mysql://" ++ u.hostname ++ portSuffix u.port ++ "/" ++ db))
      from rfl, hps]
    rfl

/-- The parse results of the three witness URLs of C10. -/
def urlElasticPortEx : ParsedUrl :=
  { scheme := "elastic", host := "eh2", port := some 9200, path := "/idx", query := [] }

def urlCassandraPortEx : ParsedUrl :=
  { scheme := "cassandra", host := "ch", port := some 9042, path := "/ks/tbl", query := [] }

def urlMysqlPortEx : ParsedUrl :=
  { scheme := "mysql", host := "mh2", port := some 3306, path := "/db/tbl", query := [] }

/-- Witness for C10 at concrete URLs with explicit ports. -/
theorem c10_elastic_netloc_and_port_witness :
    (∃ m, (by_url "elastic://eh2:9200/idx" urlElasticPortEx []).2 = [EngineCall.load m] ∧
      Py.lookup m "es.nodes" = some (Val.s ("eh2" ++ ":" ++ toString (9200 : Nat))) ∧
      Py.lookup m "es.port" = some (Val.s (toString (9200 : Nat)))) ∧
    (∃ m, (by_url "cassandra://ch:9042/ks/tbl" urlCassandraPortEx []).2 =
        [EngineCall.load m] ∧
      Py.lookup m "spark.cassandra.connection.host" = some (Val.s "ch")) ∧
    (∃ m, (by_url "mysql://mh2:3306/db/tbl" urlMysqlPortEx []).2 = [EngineCall.load m] ∧
      Py.lookup m "url" = some (Val.s ("jdbc:mysql://" ++ "mh2" ++
        (":" ++ toString (3306 : Nat)) ++ "/" ++ "db"))) :=
  ⟨c10_elastic_netloc_and_port.1 "elastic://eh2:9200/idx" urlElasticPortEx [] [] "idx" 9200
      rfl rfl rfl (by decide) rfl rfl rfl,
   c10_elastic_netloc_and_port.2.1 "cassandra://ch:9042/ks/tbl" urlCassandraPortEx [] []
      "ks" "tbl" 9042 rfl rfl rfl rfl rfl rfl,
   c10_elastic_netloc_and_port.2.2 "mysql://mh2:3306/db/tbl" urlMysqlPortEx [] [] "db"
      "tbl" 3306 rfl rfl rfl (by decide) rfl rfl rfl⟩
